import Mathlib

/-!
Verification of the k8s-ga-optimizer core against its specification.

This file gives a shallow embedding, in Lean 4, of the parts of the source
that the checked claims are about: the Prometheus telemetry gateway
(src/integrations/prometheus_client.py), the evaluation cache
(src/ga/cache.py), the load tester (src/load/load_test.py), the Kubernetes
gateway (src/integrations/k8s_client.py), the population manager
(src/ga/population.py) and the fitness calculator (src/ga/fitness.py).

Modelling conventions:
- Python floats are embedded as rationals (ℚ); Python ints as ℤ or ℕ.
- Python round(x, 2) is embedded as rounding to the nearest multiple of
  1/100 (Python uses round-half-even on binary doubles; the two agree
  except on exact half-ties, which none of the statements below touch).
- Fallible calls return Except; external I/O (HTTP responses, Kubernetes
  API outcomes, random draws) is passed in explicitly as data, so every
  definition is executable on concrete inputs.
-/

namespace K8sGA

/-- Embedding of Python round(x, 2) (two-decimal rounding), used for
cpu_limit values in src/ga/population.py. -/
def round2 (x : ℚ) : ℚ := ((round (x * 100) : ℤ) : ℚ) / 100

/-- Candidate configuration, from src/ga/types.py class Individual:
replicas (int), cpu_limit (float, cores), memory_limit (int, MB) and an
optional container_name. -/
structure Individual where
  replicas : ℤ
  cpu_limit : ℚ
  memory_limit : ℤ
  container_name : Option String := none
  deriving DecidableEq, Repr

instance : Inhabited Individual := ⟨⟨1, 1/2, 256, none⟩⟩

namespace Load

/-- Outcome of one GET request issued by a load-test worker
(src/load/load_test.py, LoadTester.run.worker): either an HTTP response
with a status code and a measured latency, or a raised exception
(timeout or transport error). -/
inductive ReqOutcome where
  | response (statusCode : ℕ) (latency : ℚ)
  | exn (msg : String)
  deriving DecidableEq, Repr

/-- The worker counts a request as a success exactly when the response
status code equals 200 (load_test.py line 164). -/
def isSuccess : ReqOutcome → Bool
  | .response code _ => code == 200
  | .exn _ => false

/-- Number of requests the workers counted into success_count. -/
def successCount (outcomes : List ReqOutcome) : ℕ :=
  (outcomes.filter isSuccess).length

/-- Number of requests the workers counted into fail_count: non-200
responses and raised exceptions. -/
def failCount (outcomes : List ReqOutcome) : ℕ :=
  (outcomes.filter (fun o => !isSuccess o)).length

/-- The latency pool flushed by the workers: only requests with status
code 200 append their latency (load_test.py lines 163-168).  The worker
threads interleave, but each counter update and each latency append is
one lock-protected step, so the final aggregate is the fold below over
the requests in some serialization order; none of the verified
statements depend on that order. -/
def collectedLatencies (outcomes : List ReqOutcome) : List ℚ :=
  outcomes.filterMap fun o =>
    match o with
    | .response code l => if code == 200 then some l else none
    | .exn _ => none

/-- Result record of a load test, from src/load/load_test.py class
LoadTestResult (zero-initialized, latencies default to the empty list). -/
structure LoadTestResult where
  success : ℕ := 0
  fail : ℕ := 0
  total : ℕ := 0
  avg_latency : ℚ := 0
  min_latency : ℚ := 0
  max_latency : ℚ := 0
  p50_latency : ℚ := 0
  p95_latency : ℚ := 0
  p99_latency : ℚ := 0
  throughput : ℚ := 0
  success_rate : ℚ := 0
  duration : ℚ := 0
  latencies : List ℚ := []
  deriving DecidableEq, Repr

/-- LoadTestResult._calculate_percentile: 0 on an empty pool, otherwise
sort ascending and index at min(int(n * p), n - 1).  Python int()
truncates toward zero, which on the non-negative products used here is
the floor; Int.toNat is the identity there. -/
def calculatePercentile (latencies : List ℚ) (percentile : ℚ) : ℚ :=
  if latencies.isEmpty then 0
  else
    let sortedLatencies := List.insertionSort (fun a b : ℚ => a ≤ b) latencies
    let index := min (Int.toNat ⌊(sortedLatencies.length : ℚ) * percentile⌋)
      (sortedLatencies.length - 1)
    sortedLatencies.getD index 0

/-- LoadTestResult.finalize: returns early (leaving every derived field
at its zero initializer) when the latency pool is empty; otherwise fills
the aggregate latency fields, total, success_rate and throughput. -/
def LoadTestResult.finalize (r : LoadTestResult) : LoadTestResult :=
  if r.latencies.isEmpty then r
  else
    let sortedLatencies := List.insertionSort (fun a b : ℚ => a ≤ b) r.latencies
    let total := r.success + r.fail
    { r with
      avg_latency := sortedLatencies.sum / (sortedLatencies.length : ℚ)
      min_latency := sortedLatencies.headD 0
      max_latency := sortedLatencies.getLastD 0
      p50_latency := calculatePercentile r.latencies (1/2)
      p95_latency := calculatePercentile r.latencies (19/20)
      p99_latency := calculatePercentile r.latencies (99/100)
      total := total
      success_rate := if 0 < total then (r.success : ℚ) / (total : ℚ) else 0
      throughput := if 0 < r.duration then (total : ℚ) / r.duration else 0 }

/-- LoadTester.run, after the worker pool joins: the counters and the
latency pool are copied into the result, which is then finalized
(load_test.py lines 196-201). -/
def runResult (outcomes : List ReqOutcome) (duration : ℚ) : LoadTestResult :=
  LoadTestResult.finalize
    { duration := duration
      latencies := collectedLatencies outcomes
      success := successCount outcomes
      fail := failCount outcomes }

/-- The ten-element latency pool used by the percentile scenario of the
specification. -/
def examplePool : List ℚ :=
  [1/10, 2/10, 3/10, 4/10, 5/10, 6/10, 7/10, 8/10, 9/10, 1]

end Load

namespace Prom

/-- Typed error raised by PrometheusClient._retry_query after exhausting
every attempt: it reports the configured attempt count and the last
underlying error (ga/exceptions.py PrometheusError). -/
inductive PromError where
  | queryFailed (attempts : ℕ) (lastError : Option String)
  deriving DecidableEq, Repr

/-- One entry of a Prometheus instant-query response.  ts and parsed
model result[i]["value"] = [timestamp, scalar]: value = none models a
dict without a "value" key; parsed = none models a "value" whose scalar
float() cannot parse (both fall back to the default in query_instant). -/
structure PromValue where
  ts : ℚ
  parsed : Option ℚ
  deriving DecidableEq, Repr

/-- One element of the response list of a Prometheus instant query. -/
structure PromItem where
  value : Option PromValue
  deriving DecidableEq, Repr

/-- Response of one successful instant query. -/
abbrev PromResponse := List PromItem

/-- Loop body of PrometheusClient._retry_query.  The list holds the
outcome each successive call of func would produce; lastError carries
the exception of the most recent failed attempt. -/
def retryQueryGo (attemptCount : ℕ) (lastError : Option String) :
    List (Except String PromResponse) → Except PromError PromResponse
  | [] => .error (.queryFailed attemptCount lastError)
  | .ok r :: _ => .ok r
  | .error e :: rest => retryQueryGo attemptCount (some e) rest

/-- PrometheusClient._retry_query: run up to config.retry_attempts
attempts (the length of the outcome list), return the first success, and
raise PrometheusError when every attempt failed.  The exponential
backoff sleeps between attempts affect timing only and are omitted. -/
def retryQuery (attempts : List (Except String PromResponse)) :
    Except PromError PromResponse :=
  retryQueryGo attempts.length none attempts

/-- PrometheusClient._query_with_cache: the 5-second in-memory query
cache is modelled by the lookup function cache, returning the fresh
cached response for a query string if one exists; on a hit the query is
not executed at all. -/
def queryWithCache (cache : String → Option PromResponse) (query : String)
    (attempts : List (Except String PromResponse)) : Except PromError PromResponse :=
  match cache query with
  | some r => .ok r
  | none => retryQuery attempts

/-- PrometheusClient.query_instant: execute the query (through the
cache), extract the scalar of the first result entry, and return the
default when the response is empty or malformed.  A PrometheusError
coming out of the retry loop is re-raised unchanged (the except
PrometheusError: raise clause at line 129), which is why the result is
an Except rather than a plain rational. -/
def queryInstant (cache : String → Option PromResponse) (query : String)
    (attempts : List (Except String PromResponse)) (default : ℚ) : Except PromError ℚ :=
  match queryWithCache cache query attempts with
  | .error e => .error e
  | .ok result =>
    match result.head? with
    | some item =>
      match item.value with
      | some v =>
        match v.parsed with
        | some x => .ok x
        | none => .ok default
      | none => .ok default
    | none => .ok default

/-- PromQL template of get_cpu_usage (braces written with escapes). -/
def cpuQuery (appLabel : String) (minutes : ℤ) : String :=
  "avg(rate(container_cpu_usage_seconds_total\x7bpod=~\"" ++ appLabel ++ ".*\"\x7d["
    ++ toString minutes ++ "m]))"

/-- PromQL template of get_memory_usage. -/
def memoryQuery (appLabel : String) : String :=
  "avg(container_memory_usage_bytes\x7bpod=~\"" ++ appLabel ++ ".*\"\x7d)"

/-- PromQL template of get_request_rate. -/
def requestRateQuery (appLabel : String) (minutes : ℤ) : String :=
  "rate(app_requests_total\x7bjob=\"" ++ appLabel ++ "\"\x7d[" ++ toString minutes ++ "m])"

/-- PromQL template of get_request_latency.  The ℚ quantile is rendered
with Lean's rational printer; the Python f-string prints the float
decimally instead, a formatting difference in an opaque cache key that
no claim depends on. -/
def latencyQuery (appLabel : String) (quantile : ℚ) (minutes : ℤ) : String :=
  "histogram_quantile(" ++ toString quantile
    ++ ", rate(app_request_latency_seconds_bucket\x7bjob=\"" ++ appLabel ++ "\"\x7d["
    ++ toString minutes ++ "m]))"

/-- PromQL template of get_error_rate. -/
def errorRateQuery (appLabel : String) (minutes : ℤ) : String :=
  "rate(app_requests_total\x7bjob=\"" ++ appLabel
    ++ "\", status_code!=\"200\"\x7d[" ++ toString minutes ++ "m])"

/-- PromQL template of get_pod_count. -/
def podCountQuery (appLabel : String) : String :=
  "count(container_memory_usage_bytes\x7bpod=~\"" ++ appLabel ++ ".*\"\x7d)"

/-- PrometheusClient.get_cpu_usage: query_instant on the CPU template
with the default default of 0.0. -/
def getCpuUsage (cache : String → Option PromResponse) (appLabel : String) (minutes : ℤ)
    (attempts : List (Except String PromResponse)) : Except PromError ℚ :=
  queryInstant cache (cpuQuery appLabel minutes) attempts 0

/-- PrometheusClient.get_memory_usage. -/
def getMemoryUsage (cache : String → Option PromResponse) (appLabel : String)
    (attempts : List (Except String PromResponse)) : Except PromError ℚ :=
  queryInstant cache (memoryQuery appLabel) attempts 0

/-- PrometheusClient.get_request_rate. -/
def getRequestRate (cache : String → Option PromResponse) (appLabel : String) (minutes : ℤ)
    (attempts : List (Except String PromResponse)) : Except PromError ℚ :=
  queryInstant cache (requestRateQuery appLabel minutes) attempts 0

/-- PrometheusClient.get_request_latency. -/
def getRequestLatency (cache : String → Option PromResponse) (appLabel : String)
    (quantile : ℚ) (minutes : ℤ)
    (attempts : List (Except String PromResponse)) : Except PromError ℚ :=
  queryInstant cache (latencyQuery appLabel quantile minutes) attempts 0

/-- PrometheusClient.get_error_rate. -/
def getErrorRate (cache : String → Option PromResponse) (appLabel : String) (minutes : ℤ)
    (attempts : List (Except String PromResponse)) : Except PromError ℚ :=
  queryInstant cache (errorRateQuery appLabel minutes) attempts 0

/-- PrometheusClient.get_pod_count. -/
def getPodCount (cache : String → Option PromResponse) (appLabel : String)
    (attempts : List (Except String PromResponse)) : Except PromError ℚ :=
  queryInstant cache (podCountQuery appLabel) attempts 0

/-- Every attempt of a query trace failed. -/
def allAttemptsFail (attempts : List (Except String PromResponse)) : Prop :=
  ∀ a ∈ attempts, ∃ e, a = Except.error e

end Prom

namespace EvalCache

/-- Content of the dict produced by Individual.to_dict (src/ga/types.py
lines 20-29): the identity triple, plus container_name when that field
is truthy (neither None nor the empty string). -/
structure CacheKeyData where
  replicas : ℤ
  cpu_limit : ℚ
  memory_limit : ℤ
  container_name : Option String
  deriving DecidableEq, Repr

/-- Individual.to_dict: container_name is included only when truthy. -/
def toDict (ind : Individual) : CacheKeyData :=
  { replicas := ind.replicas
    cpu_limit := ind.cpu_limit
    memory_limit := ind.memory_limit
    container_name :=
      match ind.container_name with
      | some s => if s = "" then none else some s
      | none => none }

/-- EvaluationCache._get_key: the source serializes to_dict to canonical
JSON (json.dumps with sort_keys=True) and MD5-hashes the string.  Both
steps are deterministic functions of the dict content, and the
serializations of distinct dicts are distinct strings, so the key is
modelled by the dict content itself.  (MD5 is collision-free on every
pair of serializations this development evaluates; the pair in the C2
counterexample has digests ebf26446... and 3dc2a307....) -/
def getKey (ind : Individual) : CacheKeyData := toDict ind

/-- EvaluationCache (src/ga/cache.py): a TTL map from keys to
(timestamp, result) pairs.  The source stores EvaluationResult values;
the cache logic never inspects them, so the value type is a parameter.
The Python dict is modelled as an association list in which put prepends
and get takes the most recent entry for a key, which has the same lookup
behavior as dict overwrite.  Wall-clock time is passed explicitly. -/
structure EvaluationCache (α : Type) where
  cache : List (CacheKeyData × ℚ × α)
  ttl : ℚ

/-- A cache with no entries; the constructor default ttl is 3600 s. -/
def EvaluationCache.empty (α : Type) (ttl : ℚ) : EvaluationCache α :=
  ⟨[], ttl⟩

/-- EvaluationCache.put at wall-clock time now. -/
def EvaluationCache.put (c : EvaluationCache α) (individual : Individual) (result : α)
    (now : ℚ) : EvaluationCache α :=
  ⟨(getKey individual, now, result) :: c.cache, c.ttl⟩

/-- EvaluationCache.get at wall-clock time now: the entry under the key,
if present and younger than ttl.  (The source also deletes an expired
entry it finds; that mutation does not affect any returned value and is
not modelled.) -/
def EvaluationCache.get (c : EvaluationCache α) (individual : Individual)
    (now : ℚ) : Option α :=
  match c.cache.find? (fun e => e.1 == getKey individual) with
  | some (_, timestamp, result) => if now - timestamp < c.ttl then some result else none
  | none => none

end EvalCache

namespace K8s

/-- Cluster mutations issued by the Kubernetes gateway, in order. -/
inductive K8sAction where
  | readDeployment
  | scale (replicas : ℤ)
  | patchResources (cpuMilli : ℤ) (memMi : ℤ)
  deriving DecidableEq, Repr

/-- Errors of the gateway: ConfigurationError from validation,
KubernetesError from a failing API call. -/
inductive K8sError where
  | configurationError (msg : String)
  | kubernetesError (msg : String)
  deriving DecidableEq, Repr

/-- Mutable state of KubernetesClient: the in-memory rollback snapshot
self._last_config. -/
structure K8sState where
  lastConfig : Option Individual
  deriving DecidableEq, Repr

/-- External outcomes one apply_configuration call observes.
currentConfig is the combined outcome of _get_current_deployment plus
the limit parsing in _save_current_config: some ind when the deployment
was read and its first container's limits parsed into an Individual
(carrying that container's name); none when the read failed or the
deployment has no container with resources, in which case the snapshot
is left untouched.  scaleOk and patchOk tell whether the scale and
resource-patch API calls succeed.  (A limit string that float()/int()
cannot parse raises out of apply_configuration; no claim touches that
path and the spec does not describe it, so it is not modelled.) -/
structure ApplyWorld where
  currentConfig : Option Individual
  scaleOk : Bool
  patchOk : Bool
  deriving DecidableEq, Repr

/-- KubernetesClient._validate_individual: bounds checks that raise
ConfigurationError before any mutation. -/
def validateIndividual (ind : Individual) : Except K8sError Unit :=
  if ind.replicas < 1 ∨ 100 < ind.replicas then
    .error (.configurationError "Invalid replicas")
  else if ind.cpu_limit < 1/100 ∨ 100 < ind.cpu_limit then
    .error (.configurationError "Invalid CPU limit")
  else if ind.memory_limit < 64 ∨ 100000 < ind.memory_limit then
    .error (.configurationError "Invalid memory limit")
  else .ok ()

/-- Result of one apply_configuration call: the state afterwards, the
API actions issued in order, and the raised error if any. -/
structure ApplyOutcome where
  state : K8sState
  actions : List K8sAction
  result : Except K8sError Unit
  deriving Repr

/-- KubernetesClient.apply_configuration with dry_run disabled: validate;
when save_for_rollback, read the current deployment and overwrite the
snapshot if the read parses (else keep the previous snapshot); then scale
and patch resources, stopping at the first failing call.  The CPU patch
value is int(cpu_limit * 1000) (truncation; equal to the floor on the
positive values that pass validation) rendered as a millicore string,
the memory value is the MB count rendered with an Mi suffix. -/
def applyConfiguration (st : K8sState) (ind : Individual) (saveForRollback : Bool)
    (w : ApplyWorld) : ApplyOutcome :=
  match validateIndividual ind with
  | .error e => ⟨st, [], .error e⟩
  | .ok _ =>
    let st1 : K8sState :=
      if saveForRollback then
        ⟨match w.currentConfig with
          | some cfg => some cfg
          | none => st.lastConfig⟩
      else st
    let saveActions : List K8sAction := if saveForRollback then [.readDeployment] else []
    if w.scaleOk = false then
      ⟨st1, saveActions ++ [.scale ind.replicas],
        .error (.kubernetesError "Failed to scale deployment")⟩
    else if w.patchOk = false then
      ⟨st1, saveActions ++ [.scale ind.replicas,
          .patchResources ⌊ind.cpu_limit * 1000⌋ ind.memory_limit],
        .error (.kubernetesError "Failed to patch resources")⟩
    else
      ⟨st1, saveActions ++ [.scale ind.replicas,
          .patchResources ⌊ind.cpu_limit * 1000⌋ ind.memory_limit],
        .ok ()⟩

/-- KubernetesClient.rollback: with no snapshot, log and return false
without touching the cluster; otherwise re-apply the snapshot with
save_for_rollback=False, catching any exception as a false return. -/
def rollback (st : K8sState) (w : ApplyWorld) : K8sState × List K8sAction × Bool :=
  match st.lastConfig with
  | none => (st, [], false)
  | some cfg =>
    let out := applyConfiguration st cfg false w
    (out.state, out.actions, out.result.isOk)

/-- Deployment status fields as the Kubernetes API reports them; a None
field is coalesced to 0 by wait_for_rollout. -/
structure DeploymentStatus where
  replicas : Option ℤ
  updated_replicas : Option ℤ
  available_replicas : Option ℤ
  ready_replicas : Option ℤ
  unavailable_replicas : Option ℤ
  deriving DecidableEq, Repr

/-- The None-to-0 coalescing (status.replicas or 0, etc.). -/
def orZero (o : Option ℤ) : ℤ := o.getD 0

/-- Success condition of one poll of wait_for_rollout (k8s_client.py
line 268): desired > 0 and desired = updated = available = ready.  The
unavailable count is only logged. -/
def rolloutComplete (status : DeploymentStatus) : Bool :=
  let desired := orZero status.replicas
  let updated := orZero status.updated_replicas
  let available := orZero status.available_replicas
  let ready := orZero status.ready_replicas
  decide (0 < desired ∧ desired = updated ∧ updated = available ∧ available = ready)

/-- KubernetesClient.wait_for_rollout.  Real time is abstracted: the
argument is the sequence of read_namespaced_deployment_status outcomes
the loop observes during its timeout window (one poll every 5 s, so
⌈timeout / 5⌉ entries).  A poll that raises ApiException is logged and
skipped; the loop returns true at the first complete poll and false when
the window closes. -/
def waitForRollout : List (Except String DeploymentStatus) → Bool
  | [] => false
  | .error _ :: rest => waitForRollout rest
  | .ok status :: rest => if rolloutComplete status then true else waitForRollout rest

end K8s

namespace Pop

/-- GA hyperparameters, from src/ga/config.py class GAParameters with
its defaults. -/
structure GAParameters where
  population_size : ℕ := 6
  generations : ℕ := 5
  mutation_rate : ℚ := 1/5
  crossover_rate : ℚ := 4/5
  elitism_count : ℕ := 1
  tournament_size : ℕ := 2
  stabilization_seconds : ℕ := 30
  replicas_bounds : ℤ × ℤ := (1, 6)
  cpu_limit_bounds : ℚ × ℚ := (1/10, 2)
  memory_limit_bounds : ℤ × ℤ := (128, 1024)
  deriving DecidableEq, Repr

/-- Python max(min_val, min(max_val, x)) on ints. -/
def clampZ (lo hi x : ℤ) : ℤ := max lo (min hi x)

/-- Python max(min_val, min(max_val, x)) on floats. -/
def clampQ (lo hi x : ℚ) : ℚ := max lo (min hi x)

/-- PopulationManager.validate_individual: clamp every attribute into
its bounds and round cpu_limit to two decimals; returns a fresh copy
(container_name is preserved by the deepcopy). -/
def validateIndividual (p : GAParameters) (ind : Individual) : Individual :=
  { ind with
    replicas := clampZ p.replicas_bounds.1 p.replicas_bounds.2 ind.replicas
    cpu_limit := round2 (clampQ p.cpu_limit_bounds.1 p.cpu_limit_bounds.2 ind.cpu_limit)
    memory_limit := clampZ p.memory_limit_bounds.1 p.memory_limit_bounds.2 ind.memory_limit }

/-- PopulationManager.create_random_individual.  The draws are passed
explicitly: dRep = random.randint over the replica bounds, dCpu =
random.uniform over the cpu bounds (rounded to two decimals), dMem =
random.randint over the memory bounds; the support of each distribution
appears as a hypothesis of the theorems below. -/
def createRandomIndividual (dRep : ℤ) (dCpu : ℚ) (dMem : ℤ) : Individual :=
  { replicas := dRep
    cpu_limit := round2 dCpu
    memory_limit := dMem
    container_name := none }

/-- Random draws one PopulationManager.mutate call consumes: trigger =
random.random() compared against mutation_rate; param = random.choice
over the three attribute names; dInt = the randint delta of the integer
branches; dGauss = the random.gauss delta of the cpu branch. -/
structure MutateDraws where
  trigger : ℚ
  param : Fin 3
  dInt : ℤ
  dGauss : ℚ
  deriving DecidableEq, Repr

/-- PopulationManager.mutate: when trigger exceeds mutation_rate the
individual is returned as a deep copy; otherwise one attribute is
shifted by its delta, clamped in the branch, and the result passes
through validate_individual. -/
def mutate (p : GAParameters) (ind : Individual) (strength : ℚ) (d : MutateDraws) :
    Individual :=
  if p.mutation_rate < d.trigger then ind
  else
    match d.param with
    | 0 =>
      let shifted := clampZ p.replicas_bounds.1 p.replicas_bounds.2 (ind.replicas + d.dInt)
      validateIndividual p { ind with replicas := shifted }
    | 1 =>
      let shifted :=
        round2 (clampQ p.cpu_limit_bounds.1 p.cpu_limit_bounds.2 (ind.cpu_limit + d.dGauss))
      validateIndividual p { ind with cpu_limit := shifted }
    | 2 =>
      let shifted :=
        clampZ p.memory_limit_bounds.1 p.memory_limit_bounds.2 (ind.memory_limit + d.dInt)
      validateIndividual p { ind with memory_limit := shifted }

/-- Python int(round((a + b) / 2)): the mean of two ints rounded
half-to-even (banker's rounding), reaching the floor division only
through Int.ediv so the embedding is explicit about rounding direction. -/
def pyRoundMeanInt (a b : ℤ) : ℤ :=
  let s := a + b
  if s.emod 2 = 0 then s.ediv 2
  else if (s.ediv 2).emod 2 = 0 then s.ediv 2 else s.ediv 2 + 1

/-- Random draws one PopulationManager.crossover call consumes. -/
structure CrossoverDraws where
  trigger : ℚ
  parentPick : Bool
  repCoin : ℚ
  repPick : Bool
  alpha : ℚ
  memCoin : ℚ
  memPick : Bool
  deriving DecidableEq, Repr

/-- PopulationManager.crossover: when trigger exceeds crossover_rate,
return a deep copy of one parent picked uniformly; otherwise combine
replicas (coin: pick or rounded mean), cpu_limit (alpha blend rounded to
two decimals) and memory_limit (coin: pick or rounded mean), and
validate the child (whose container_name starts as None). -/
def crossover (p : GAParameters) (parent1 parent2 : Individual) (d : CrossoverDraws) :
    Individual :=
  if p.crossover_rate < d.trigger then
    (if d.parentPick then parent1 else parent2)
  else
    let reps := if d.repCoin < 1/2 then
        (if d.repPick then parent1.replicas else parent2.replicas)
      else pyRoundMeanInt parent1.replicas parent2.replicas
    let cpu := round2 (d.alpha * parent1.cpu_limit + (1 - d.alpha) * parent2.cpu_limit)
    let mems := if d.memCoin < 1/2 then
        (if d.memPick then parent1.memory_limit else parent2.memory_limit)
      else pyRoundMeanInt parent1.memory_limit parent2.memory_limit
    validateIndividual p ⟨reps, cpu, mems, none⟩

/-- Python max over (individual, score) pairs keyed by score keeps the
first maximal element: a later pair replaces the champion only when its
score is strictly greater. -/
def maxByScore (best : Individual × ℚ) : List (Individual × ℚ) → Individual × ℚ
  | [] => best
  | x :: rest => maxByScore (if best.2 < x.2 then x else best) rest

/-- PopulationManager.tournament_select: idxs is the random.sample draw
of distinct indices; the participant with the highest score wins.  The
empty draw cannot occur in the source (random.sample returns
min(tournament_size, len) indices); it falls back to the default
individual so the function stays total. -/
def tournamentSelect (individuals : List Individual) (fitness_scores : List ℚ)
    (idxs : List ℕ) : Individual :=
  match idxs.map (fun i => (individuals.getD i default, fitness_scores.getD i 0)) with
  | [] => default
  | x :: rest => (maxByScore x rest).1

/-- Individual.__eq__ (src/ga/types.py): equality on the identity
triple, ignoring container_name. -/
def tripleEq (a b : Individual) : Bool :=
  a.replicas == b.replicas && a.cpu_limit == b.cpu_limit
    && a.memory_limit == b.memory_limit

/-- Random draws one select_parents call consumes: the two tournament
sample draws plus the sample draws of the bounded retry loop. -/
structure SelectDraws where
  idxs1 : List ℕ
  idxs2 : List ℕ
  retries : List (List ℕ)
  deriving DecidableEq, Repr

/-- Retry loop of select_parents: while the parents compare equal (by
the identity triple) and the population has more than one member,
redraw parent2, consuming one retry draw per attempt. -/
def selectParentsGo (individuals : List Individual) (fitness_scores : List ℚ)
    (parent1 : Individual) : Individual → List (List ℕ) → Individual
  | parent2, [] => parent2
  | parent2, draw :: rest =>
    if tripleEq parent1 parent2 && decide (1 < individuals.length) then
      selectParentsGo individuals fitness_scores parent1
        (tournamentSelect individuals fitness_scores draw) rest
    else parent2

/-- PopulationManager.select_parents: two tournament selections, then
the retry loop bounded to 10 attempts (modelled by consuming at most the
first 10 retry draws). -/
def selectParents (individuals : List Individual) (fitness_scores : List ℚ)
    (d : SelectDraws) : Individual × Individual :=
  let parent1 := tournamentSelect individuals fitness_scores d.idxs1
  let parent2 := tournamentSelect individuals fitness_scores d.idxs2
  (parent1, selectParentsGo individuals fitness_scores parent1 parent2 (d.retries.take 10))

/-- Population (src/ga/population.py): an ordered list of individuals
and a 0-based generation counter. -/
structure Population where
  individuals : List Individual
  generation : ℕ := 0
  deriving DecidableEq, Repr

/-- Random draws that producing one child in evolve consumes. -/
structure ChildDraws where
  sel : SelectDraws
  cross : CrossoverDraws
  mutDraw : MutateDraws
  deriving DecidableEq, Repr

/-- Python sorted(..., key=score, reverse=True): stable descending sort
on the score component. -/
def sortByScoreDesc (pairs : List (Individual × ℚ)) : List (Individual × ℚ) :=
  List.insertionSort (fun a b : Individual × ℚ => b.2 ≤ a.2) pairs

/-- PopulationManager.evolve (called with the default elite_count, so
the configured elitism_count is used): sort by fitness descending, keep
the elite unchanged, select parents among the top half, and fill the
remaining slots with mutate(crossover(select_parents(...))) children;
the generation counter increments.  draws i supplies the random draws of
child i. -/
def evolve (p : GAParameters) (population : Population) (fitness_scores : List ℚ)
    (draws : ℕ → ChildDraws) : Population :=
  let sorted_pop := sortByScoreDesc (population.individuals.zip fitness_scores)
  let elite := (sorted_pop.take p.elitism_count).map Prod.fst
  let survivor_count := max 1 (population.individuals.length / 2)
  let survivors := (sorted_pop.take survivor_count).map Prod.fst
  let survivor_scores := (sorted_pop.take survivor_count).map Prod.snd
  let childCount := population.individuals.length - elite.length
  let children := (List.range childCount).map fun i =>
    let d := draws i
    let parents := selectParents survivors survivor_scores d.sel
    mutate p (crossover p parents.1 parents.2 d.cross) (1/10) d.mutDraw
  ⟨elite ++ children, population.generation + 1⟩

/-- The bounds invariant of the specification: every attribute within
its configured bounds and cpu_limit a multiple of 1/100 (at most two
decimal places). -/
def twoDecimals (x : ℚ) : Prop := ∃ k : ℤ, x = (k : ℚ) / 100

/-- An individual respects the configured bounds and cpu precision. -/
def inBounds (p : GAParameters) (ind : Individual) : Prop :=
  p.replicas_bounds.1 ≤ ind.replicas ∧ ind.replicas ≤ p.replicas_bounds.2
    ∧ p.cpu_limit_bounds.1 ≤ ind.cpu_limit ∧ ind.cpu_limit ≤ p.cpu_limit_bounds.2
    ∧ p.memory_limit_bounds.1 ≤ ind.memory_limit
    ∧ ind.memory_limit ≤ p.memory_limit_bounds.2
    ∧ twoDecimals ind.cpu_limit

/-- Well-formed configured bounds: each minimum at most its maximum, and
the cpu bounds themselves two-decimal values (as every bound the
configuration layer accepts is). -/
def wfParams (p : GAParameters) : Prop :=
  p.replicas_bounds.1 ≤ p.replicas_bounds.2
    ∧ p.cpu_limit_bounds.1 ≤ p.cpu_limit_bounds.2
    ∧ p.memory_limit_bounds.1 ≤ p.memory_limit_bounds.2
    ∧ twoDecimals p.cpu_limit_bounds.1
    ∧ twoDecimals p.cpu_limit_bounds.2

end Pop

namespace Fitness

/-- Weights of the four fitness criteria, from src/ga/fitness.py class
FitnessWeights with its defaults. -/
structure FitnessWeights where
  throughput_weight : ℚ := 3/10
  latency_weight : ℚ := 1/4
  resource_efficiency_weight : ℚ := 1/4
  reliability_weight : ℚ := 1/5
  deriving DecidableEq, Repr

/-- Sum of the four weights. -/
def FitnessWeights.total (w : FitnessWeights) : ℚ :=
  w.throughput_weight + w.latency_weight
    + w.resource_efficiency_weight + w.reliability_weight

/-- FitnessWeights.normalize: divide each weight by the total when the
total is positive, else leave the weights unchanged. -/
def FitnessWeights.normalize (w : FitnessWeights) : FitnessWeights :=
  if 0 < w.total then
    { throughput_weight := w.throughput_weight / w.total
      latency_weight := w.latency_weight / w.total
      resource_efficiency_weight := w.resource_efficiency_weight / w.total
      reliability_weight := w.reliability_weight / w.total }
  else w

/-- Metrics record from src/ga/types.py class FitnessMetrics (the
evaluated_at wall-clock timestamp is omitted; nothing reads it). -/
structure FitnessMetrics where
  throughput : ℚ := 0
  avg_latency : ℚ := 0
  p95_latency : ℚ := 0
  p99_latency : ℚ := 0
  success_rate : ℚ := 0
  total_requests : ℤ := 0
  failed_requests : ℤ := 0
  cpu_usage : ℚ := 0
  memory_usage : ℚ := 0
  cpu_utilization : ℚ := 0
  memory_utilization : ℚ := 0
  request_rate : ℚ := 0
  error_rate : ℚ := 0
  deriving DecidableEq, Repr

/-- FitnessCalculator._normalize_throughput. -/
def normalizeThroughput (throughput : ℚ) : ℚ :=
  if throughput ≤ 0 then 0 else min 1 (1 / (1 + 100 / throughput))

/-- FitnessCalculator._normalize_latency. -/
def normalizeLatency (avg_latency p95_latency : ℚ) : ℚ :=
  if avg_latency ≤ 0 then 1
  else
    let avg_score := 1 / (1 + avg_latency * 10)
    let p95_score := if 0 < p95_latency then 1 / (1 + p95_latency * 5) else 1
    (2/5) * avg_score + (3/5) * p95_score

/-- FitnessCalculator._calculate_efficiency: piecewise score of the mean
utilization, a 1.2 bonus for high throughput under light load, then a
clamp to the unit interval. -/
def calculateEfficiency (individual : Individual) (metrics : FitnessMetrics) : ℚ :=
  let avg_util := (metrics.cpu_utilization + metrics.memory_utilization) / 2
  let efficiency :=
    if avg_util < 3/10 then avg_util / (3/10)
    else if 9/10 < avg_util then (1 - avg_util) / (1/10)
    else 1 - |avg_util - 3/5| / (3/10)
  let efficiency :=
    if 50 < metrics.throughput ∧ avg_util < 1/2 then efficiency * (6/5) else efficiency
  min 1 (max 0 efficiency)

/-- FitnessCalculator._calculate_reliability. -/
def calculateReliability (metrics : FitnessMetrics) : ℚ :=
  max 0 (metrics.success_rate * (1 - min 1 (metrics.error_rate / 10) * (1/2)))

/-- FitnessCalculator.calculate: weighted sum of the four sub-scores.
The constructor normalizes the stored weights, so the weights argument
of the theorems below is always of the form w.normalize. -/
def calculate (weights : FitnessWeights) (individual : Individual)
    (metrics : FitnessMetrics) : ℚ :=
  weights.throughput_weight * normalizeThroughput metrics.throughput
    + weights.latency_weight * normalizeLatency metrics.avg_latency metrics.p95_latency
    + weights.resource_efficiency_weight * calculateEfficiency individual metrics
    + weights.reliability_weight * calculateReliability metrics

end Fitness

end K8sGA

namespace K8sGA

namespace Load

theorem finalize_keeps_counters (r : LoadTestResult) :
    r.finalize.success = r.success ∧ r.finalize.fail = r.fail
      ∧ r.finalize.latencies = r.latencies ∧ r.finalize.duration = r.duration := by
  unfold LoadTestResult.finalize
  split <;> exact ⟨rfl, rfl, rfl, rfl⟩

theorem successCount_add_failCount (outcomes : List ReqOutcome) :
    successCount outcomes + failCount outcomes = outcomes.length := by
  induction outcomes with
  | nil => rfl
  | cons o rest ih =>
    cases h : isSuccess o <;>
      simp [successCount, failCount, List.filter_cons, h] at ih ⊢ <;> omega

theorem length_collectedLatencies (outcomes : List ReqOutcome) :
    (collectedLatencies outcomes).length = successCount outcomes := by
  induction outcomes with
  | nil => rfl
  | cons o rest ih =>
    cases o with
    | exn m => simpa [collectedLatencies, successCount, List.filter_cons, isSuccess] using ih
    | response code l =>
      by_cases hc : code = 200 <;>
        simpa [collectedLatencies, successCount, List.filter_cons, isSuccess, hc] using ih

theorem collectedLatencies_eq_nil (outcomes : List ReqOutcome)
    (h : ∀ o ∈ outcomes, isSuccess o = false) : collectedLatencies outcomes = [] := by
  induction outcomes with
  | nil => rfl
  | cons o rest ih =>
    have ho := h o (by simp)
    have hrest := ih fun x hx => h x (by simp [hx])
    cases o with
    | exn m => simpa [collectedLatencies] using hrest
    | response code l =>
      have hc : ¬ code = 200 := by simpa [isSuccess] using ho
      simpa [collectedLatencies, hc] using hrest

theorem successCount_eq_zero (outcomes : List ReqOutcome)
    (h : ∀ o ∈ outcomes, isSuccess o = false) : successCount outcomes = 0 := by
  have h1 := length_collectedLatencies outcomes
  rw [collectedLatencies_eq_nil outcomes h] at h1
  exact h1.symm

theorem failCount_eq_length (outcomes : List ReqOutcome)
    (h : ∀ o ∈ outcomes, isSuccess o = false) : failCount outcomes = outcomes.length := by
  have h1 := successCount_add_failCount outcomes
  rw [successCount_eq_zero outcomes h] at h1
  simpa using h1

end Load

end K8sGA

namespace K8sGA

namespace Load

/-- C3 (counterexample): on the specification's own example pool the
percentile function returns 0.6 at p50 (and 1.0 at p95 and p99), not the
0.5 / 0.9 / 0.9 the claim states, so the claim as written is false. -/
theorem percentile_example_counterexample :
    calculatePercentile examplePool (1/2) = 3/5 ∧ (3/5 : ℚ) ≠ 1/2
      ∧ calculatePercentile examplePool (19/20) = 1 ∧ (1 : ℚ) ≠ 9/10 := by
  refine ⟨?_, by norm_num, ?_, by norm_num⟩ <;>
    norm_num [calculatePercentile, examplePool, List.insertionSort, List.orderedInsert,
      List.getD, Int.toNat]

/-- C3 (amended): the latency percentile function sorts the pool
ascending (a sorted permutation) and returns sorted[min(floor(p*n),
n-1)]; on the pool [0.1, ..., 1.0] this yields p50 = 0.6, p95 = 1.0,
p99 = 1.0 and p100 = 1.0. -/
theorem calculatePercentile_spec :
    (∀ (l : List ℚ) (p : ℚ), l ≠ [] →
        calculatePercentile l p =
          (List.insertionSort (fun a b : ℚ => a ≤ b) l).getD
            (min (Int.toNat ⌊(l.length : ℚ) * p⌋) (l.length - 1)) 0)
    ∧ (∀ l : List ℚ,
        (List.insertionSort (fun a b : ℚ => a ≤ b) l).Sorted (fun a b : ℚ => a ≤ b)
          ∧ List.Perm (List.insertionSort (fun a b : ℚ => a ≤ b) l) l)
    ∧ calculatePercentile examplePool (1/2) = 3/5
    ∧ calculatePercentile examplePool (19/20) = 1
    ∧ calculatePercentile examplePool (99/100) = 1
    ∧ calculatePercentile examplePool 1 = 1 := by
  refine ⟨?_, ?_, ?_, ?_, ?_, ?_⟩
  · intro l p hl
    cases l with
    | nil => exact absurd rfl hl
    | cons x xs =>
      simp [calculatePercentile, List.length_insertionSort, List.orderedInsert_length,
        Nat.cast_add, Nat.cast_one]
  · exact fun l => ⟨List.sorted_insertionSort _ l, List.perm_insertionSort _ l⟩
  all_goals
    norm_num [calculatePercentile, examplePool, List.insertionSort, List.orderedInsert,
      List.getD, Int.toNat]

/-- Witness for C3's amended theorem: its general formula conjunct
instantiated at the singleton pool. -/
theorem calculatePercentile_spec_witness :
    calculatePercentile [(1 : ℚ)] (1/2) =
      (List.insertionSort (fun a b : ℚ => a ≤ b) [(1 : ℚ)]).getD
        (min (Int.toNat ⌊(([(1 : ℚ)].length : ℕ) : ℚ) * (1/2)⌋) ([(1 : ℚ)].length - 1)) 0 :=
  calculatePercentile_spec.1 [(1 : ℚ)] (1/2) (by simp)

/-- C4 (counterexample): a response with status 201 — a 2xx status — is
counted as a failure and contributes no latency, so the claim that every
2xx response counts as a success is false. -/
theorem worker_201_counterexample :
    (200 ≤ 201 ∧ 201 < 300)
    ∧ successCount [ReqOutcome.response 201 (1/10)] = 0
    ∧ failCount [ReqOutcome.response 201 (1/10)] = 1
    ∧ collectedLatencies [ReqOutcome.response 201 (1/10)] = [] :=
  ⟨⟨by decide, by decide⟩, rfl, rfl, rfl⟩

/-- C4 (amended): in the load generator exactly the responses with
status code equal to 200 are counted as successes and contribute their
latency to the pool; every other outcome (any response with a status
other than 200 — including other 2xx codes — or a raised
timeout/transport error) is counted as a failure and contributes no
latency.  finalize copies the counters unchanged, successes and failures
partition the requests, and the pool holds one latency per success. -/
theorem run_success_iff_200 (outcomes : List ReqOutcome) (d : ℚ) :
    ((runResult outcomes d).success = successCount outcomes
      ∧ (runResult outcomes d).fail = failCount outcomes
      ∧ (runResult outcomes d).latencies = collectedLatencies outcomes)
    ∧ successCount outcomes + failCount outcomes = outcomes.length
    ∧ (∀ (code : ℕ) (lat : ℚ), isSuccess (.response code lat) = true ↔ code = 200)
    ∧ (∀ msg : String, isSuccess (.exn msg) = false)
    ∧ (collectedLatencies outcomes).length = successCount outcomes := by
  refine ⟨?_, successCount_add_failCount outcomes, ?_, fun _ => rfl,
    length_collectedLatencies outcomes⟩
  · have h := finalize_keeps_counters
      { duration := d
        latencies := collectedLatencies outcomes
        success := successCount outcomes
        fail := failCount outcomes }
    exact ⟨h.1, h.2.1, h.2.2.1⟩
  · intro code lat
    simp [isSuccess]

/-- C10: when the latency pool ends empty (every request failed, or no
request ran), finalize returns early and leaves total, success_rate,
throughput and all latency fields at 0, while the fail counter still
counts every request — so with at least one failed request, total does
not equal success + fail. -/
theorem finalize_empty_pool_spec (outcomes : List ReqOutcome) (d : ℚ)
    (h : ∀ o ∈ outcomes, isSuccess o = false) :
    (runResult outcomes d).total = 0
    ∧ (runResult outcomes d).success = 0
    ∧ (runResult outcomes d).success_rate = 0
    ∧ (runResult outcomes d).throughput = 0
    ∧ (runResult outcomes d).avg_latency = 0
    ∧ (runResult outcomes d).min_latency = 0
    ∧ (runResult outcomes d).max_latency = 0
    ∧ (runResult outcomes d).p50_latency = 0
    ∧ (runResult outcomes d).p95_latency = 0
    ∧ (runResult outcomes d).p99_latency = 0
    ∧ (runResult outcomes d).latencies = []
    ∧ (runResult outcomes d).fail = outcomes.length
    ∧ (outcomes ≠ [] →
        (runResult outcomes d).total
          ≠ (runResult outcomes d).success + (runResult outcomes d).fail) := by
  have hlat := collectedLatencies_eq_nil outcomes h
  have hsucc := successCount_eq_zero outcomes h
  have hfail := failCount_eq_length outcomes h
  have hrun : runResult outcomes d =
      { duration := d, latencies := [], success := 0, fail := outcomes.length } := by
    simp [runResult, hlat, hsucc, hfail, LoadTestResult.finalize]
  rw [hrun]
  refine ⟨rfl, rfl, rfl, rfl, rfl, rfl, rfl, rfl, rfl, rfl, rfl, rfl, fun hne => ?_⟩
  have hpos : 0 < outcomes.length := List.length_pos.mpr hne
  simp only
  omega

/-- Witness for C10 at a single timed-out request with duration 5. -/
theorem finalize_empty_pool_spec_witness :
    (runResult [ReqOutcome.exn "timeout"] 5).total = 0
    ∧ (runResult [ReqOutcome.exn "timeout"] 5).fail = 1
    ∧ ([ReqOutcome.exn "timeout"] ≠ ([] : List ReqOutcome) →
        (runResult [ReqOutcome.exn "timeout"] 5).total
          ≠ (runResult [ReqOutcome.exn "timeout"] 5).success
            + (runResult [ReqOutcome.exn "timeout"] 5).fail) := by
  have h := finalize_empty_pool_spec [ReqOutcome.exn "timeout"] 5 (by decide)
  exact ⟨h.1, h.2.2.2.2.2.2.2.2.2.2.2.1, h.2.2.2.2.2.2.2.2.2.2.2.2⟩

end Load

end K8sGA

namespace K8sGA

namespace Prom

theorem retryQueryGo_all_fail (n : ℕ) (lastError : Option String)
    (attempts : List (Except String PromResponse))
    (hf : ∀ a ∈ attempts, ∃ e, a = Except.error e) :
    ∃ e, retryQueryGo n lastError attempts = Except.error e := by
  induction attempts generalizing lastError with
  | nil => exact ⟨.queryFailed n lastError, rfl⟩
  | cons a rest ih =>
    obtain ⟨e, rfl⟩ := hf a (by simp)
    simpa [retryQueryGo] using ih (some e) fun x hx => hf x (by simp [hx])

theorem queryInstant_all_fail (cache : String → Option PromResponse) (query : String)
    (attempts : List (Except String PromResponse)) (default : ℚ)
    (hc : cache query = none) (hf : allAttemptsFail attempts) :
    ∃ e, queryInstant cache query attempts default = Except.error e := by
  obtain ⟨e, he⟩ := retryQueryGo_all_fail attempts.length none attempts hf
  exact ⟨e, by simp [queryInstant, queryWithCache, retryQuery, hc, he]⟩

/-- C1 (counterexample): with the default three retry attempts all
failing and no cached response, get_cpu_usage propagates the typed
PrometheusError raised by the retry loop instead of returning the
default 0 — query_instant re-raises PrometheusError explicitly. -/
theorem getCpuUsage_exhaustion_counterexample :
    getCpuUsage (fun _ => none) "app-ga" 1
        [Except.error "boom", Except.error "boom", Except.error "boom"]
      = Except.error (PromError.queryFailed 3 (some "boom"))
    ∧ getCpuUsage (fun _ => none) "app-ga" 1
        [Except.error "boom", Except.error "boom", Except.error "boom"]
      ≠ Except.ok 0 := by
  refine ⟨rfl, fun h => ?_⟩
  rw [(rfl : getCpuUsage (fun _ => none) "app-ga" 1
      [Except.error "boom", Except.error "boom", Except.error "boom"]
    = Except.error (PromError.queryFailed 3 (some "boom")))] at h
  exact Except.noConfusion h

/-- C1 (amended): when every configured retry attempt of the underlying
query fails (and the short-TTL query cache has no entry), every semantic
telemetry method propagates the typed PrometheusError that the raw retry
primitive raises — query_instant re-raises it rather than returning the
default; the default 0 is returned only when a query succeeds with an
empty or malformed response. -/
theorem semantic_methods_propagate_exhaustion
    (cache : String → Option PromResponse) (appLabel : String) (minutes : ℤ)
    (quantile : ℚ) (attempts : List (Except String PromResponse))
    (hc : ∀ q, cache q = none) (hf : allAttemptsFail attempts) :
    (∃ e, getCpuUsage cache appLabel minutes attempts = Except.error e)
    ∧ (∃ e, getMemoryUsage cache appLabel attempts = Except.error e)
    ∧ (∃ e, getRequestRate cache appLabel minutes attempts = Except.error e)
    ∧ (∃ e, getRequestLatency cache appLabel quantile minutes attempts = Except.error e)
    ∧ (∃ e, getErrorRate cache appLabel minutes attempts = Except.error e)
    ∧ (∃ e, getPodCount cache appLabel attempts = Except.error e)
    ∧ (∀ (q : String) (rest : List (Except String PromResponse)),
        queryInstant cache q (Except.ok [] :: rest) 0 = Except.ok 0) := by
  refine ⟨queryInstant_all_fail cache _ attempts 0 (hc _) hf,
    queryInstant_all_fail cache _ attempts 0 (hc _) hf,
    queryInstant_all_fail cache _ attempts 0 (hc _) hf,
    queryInstant_all_fail cache _ attempts 0 (hc _) hf,
    queryInstant_all_fail cache _ attempts 0 (hc _) hf,
    queryInstant_all_fail cache _ attempts 0 (hc _) hf,
    fun q rest => ?_⟩
  simp [queryInstant, queryWithCache, retryQuery, retryQueryGo, hc q]

/-- Witness for C1's amended theorem at a concrete all-failing trace. -/
theorem semantic_methods_propagate_exhaustion_witness :
    ∃ e, getCpuUsage (fun _ => none) "app-ga" 1 [Except.error "boom"] = Except.error e :=
  (semantic_methods_propagate_exhaustion (fun _ => none) "app-ga" 1 (1/2)
    [Except.error "boom"] (fun _ => rfl)
    (fun a ha => by rw [List.mem_singleton] at ha; exact ⟨"boom", ha⟩)).1

end Prom

namespace EvalCache

/-- C2 (counterexample): two individuals with the same identity triple
but different container_name fields hash to different cache keys (the
serialized dicts differ, hence so do their MD5 digests), so a put for
the first followed by a get for the second within TTL misses. -/
theorem cache_key_container_counterexample :
    (Individual.replicas ⟨2, 1, 256, none⟩ = Individual.replicas ⟨2, 1, 256, some "app"⟩
      ∧ Individual.cpu_limit ⟨2, 1, 256, none⟩ = Individual.cpu_limit ⟨2, 1, 256, some "app"⟩
      ∧ Individual.memory_limit ⟨2, 1, 256, none⟩
          = Individual.memory_limit ⟨2, 1, 256, some "app"⟩)
    ∧ getKey ⟨2, 1, 256, none⟩ ≠ getKey ⟨2, 1, 256, some "app"⟩
    ∧ ((EvaluationCache.empty ℕ 3600).put ⟨2, 1, 256, none⟩ 7 0).get
        ⟨2, 1, 256, some "app"⟩ 1 = none := by
  refine ⟨⟨rfl, rfl, rfl⟩, by decide, by decide⟩

/-- C2 (amended): the evaluation cache key is a function of the
individual's to_dict content — the identity triple together with the
container identifier when that field is truthy.  For any two individuals
with equal to_dict content (in particular, equal triples and equal
container identifier fields), a put for one followed by a get for the
other within TTL returns the stored result; when only the triples agree
the get can miss, as the counterexample shows. -/
theorem cache_put_get_roundtrip {α : Type} (c : EvaluationCache α) (a b : Individual)
    (r : α) (t now : ℚ) (hk : toDict a = toDict b) (httl : now - t < c.ttl) :
    (c.put a r t).get b now = some r := by
  simp [EvaluationCache.get, EvaluationCache.put, getKey, hk, List.find?, httl]

/-- Witness for C2's amended theorem: put then get of the same
individual within TTL returns the stored value. -/
theorem cache_put_get_roundtrip_witness :
    ((EvaluationCache.empty ℕ 3600).put ⟨2, 1/2, 256, none⟩ 7 0).get
      ⟨2, 1/2, 256, none⟩ 1 = some 7 :=
  cache_put_get_roundtrip (EvaluationCache.empty ℕ 3600) ⟨2, 1/2, 256, none⟩
    ⟨2, 1/2, 256, none⟩ 7 0 1 rfl (by norm_num [EvaluationCache.empty])

end EvalCache

end K8sGA


namespace K8sGA

namespace K8s

theorem applyConfiguration_state (st : K8sState) (ind : Individual) (save : Bool)
    (w : ApplyWorld) :
    (applyConfiguration st ind save w).state =
      match validateIndividual ind with
      | .error _ => st
      | .ok _ =>
        if save then
          ⟨match w.currentConfig with
            | some cfg => some cfg
            | none => st.lastConfig⟩
        else st := by
  unfold applyConfiguration
  cases validateIndividual ind with
  | error e => rfl
  | ok u =>
    by_cases hs : w.scaleOk = false
    · simp [hs]
    · by_cases hp : w.patchOk = false <;> simp [hs, hp]

/-- C5 (counterexample): an apply_configuration call with
save_for_rollback=true that passes validation and reads the current
deployment, but whose scale call then fails, raises KubernetesError —
the apply is not successful — and still leaves the rollback snapshot
defined, because _save_current_config runs before the mutations. -/
theorem snapshot_after_failed_apply_counterexample :
    (applyConfiguration ⟨none⟩ ⟨2, 1, 256, none⟩ true
        ⟨some ⟨3, 1, 512, some "app-ga"⟩, false, true⟩).result
      = Except.error (K8sError.kubernetesError "Failed to scale deployment")
    ∧ (applyConfiguration ⟨none⟩ ⟨2, 1, 256, none⟩ true
        ⟨some ⟨3, 1, 512, some "app-ga"⟩, false, true⟩).state.lastConfig
      = some ⟨3, 1, 512, some "app-ga"⟩ := by
  have hv : validateIndividual (⟨2, 1, 256, none⟩ : Individual) = Except.ok () := by
    norm_num [validateIndividual]
  constructor <;> simp [applyConfiguration, hv]

/-- C5 (amended): the rollback snapshot changes only during an
apply_configuration call with save_for_rollback=true that passed
validation, and then it takes the value read from the current
deployment — whether or not the subsequent scale and patch succeed; an
apply with save_for_rollback=false never touches the snapshot; and
calling rollback() with no snapshot fails softly: it returns false,
raises nothing, performs no cluster action and leaves the state
unchanged. -/
theorem rollback_snapshot_spec :
    (∀ (st : K8sState) (w : ApplyWorld), st.lastConfig = none →
        rollback st w = (st, [], false))
    ∧ (∀ (st : K8sState) (ind : Individual) (w : ApplyWorld),
        (applyConfiguration st ind false w).state = st)
    ∧ (∀ (st : K8sState) (ind : Individual) (save : Bool) (w : ApplyWorld),
        (applyConfiguration st ind save w).state.lastConfig ≠ st.lastConfig →
          save = true ∧ validateIndividual ind = Except.ok ()
            ∧ (applyConfiguration st ind save w).state.lastConfig = w.currentConfig) := by
  refine ⟨?_, ?_, ?_⟩
  · intro st w h
    obtain ⟨lc⟩ := st
    simp only at h
    subst h
    rfl
  · intro st ind w
    rw [applyConfiguration_state]
    cases validateIndividual ind <;> simp
  · intro st ind save w h
    rw [applyConfiguration_state] at h
    cases hv : validateIndividual ind with
    | error e => rw [hv] at h; exact absurd rfl h
    | ok u =>
      rw [hv] at h
      cases save with
      | false => simp at h
      | true =>
        cases hc : w.currentConfig with
        | none => rw [hc] at h; simp at h
        | some cfg =>
          rw [hc] at h
          refine ⟨rfl, rfl, ?_⟩
          rw [applyConfiguration_state, hv, hc]
          simp

/-- Witness for C5's amended theorem: rollback on a fresh client state
returns false with no actions. -/
theorem rollback_snapshot_spec_witness :
    rollback ⟨none⟩ ⟨none, true, true⟩ = (⟨none⟩, [], false) :=
  rollback_snapshot_spec.1 ⟨none⟩ ⟨none, true, true⟩ rfl

/-- C9: wait_for_rollout returns true exactly when one of the polled
statuses satisfies desired > 0 with desired = updated = available =
ready; it returns true immediately on a (3, 3, 3, 3) status regardless
of what follows; when no poll in the window satisfies the condition it
returns false (a Bool, never an exception); and the unavailable count
never influences the outcome. -/
theorem waitForRollout_spec :
    (∀ polls : List (Except String DeploymentStatus),
        waitForRollout polls = true
          ↔ ∃ s : DeploymentStatus, Except.ok s ∈ polls ∧ rolloutComplete s = true)
    ∧ (∀ (u : Option ℤ) (rest : List (Except String DeploymentStatus)),
        waitForRollout (Except.ok ⟨some 3, some 3, some 3, some 3, u⟩ :: rest) = true)
    ∧ (∀ (s : DeploymentStatus) (u : Option ℤ),
        rolloutComplete { s with unavailable_replicas := u } = rolloutComplete s) := by
  refine ⟨?_, ?_, fun s u => rfl⟩
  · intro polls
    induction polls with
    | nil => simp [waitForRollout]
    | cons a rest ih =>
      cases a with
      | error e => simp [waitForRollout, ih]
      | ok s =>
        cases hc : rolloutComplete s with
        | true =>
          simp only [waitForRollout, hc, if_true, true_iff]
          exact ⟨s, by simp, hc⟩
        | false =>
          simp only [waitForRollout, hc, Bool.false_eq_true, if_false, ih]
          constructor
          · rintro ⟨t, ht, hct⟩
            exact ⟨t, by simp [ht], hct⟩
          · rintro ⟨t, ht, hct⟩
            rcases List.mem_cons.mp ht with heq | hmem
            · cases Except.ok.inj heq
              rw [hc] at hct
              exact absurd hct (by simp)
            · exact ⟨t, hmem, hct⟩
  · intro u rest
    have hc : rolloutComplete ⟨some 3, some 3, some 3, some 3, u⟩ = true := rfl
    simp [waitForRollout, hc]

end K8s

end K8sGA

namespace K8sGA

namespace Fitness

theorem normalizeThroughput_bounds (t : ℚ) :
    0 ≤ normalizeThroughput t ∧ normalizeThroughput t ≤ 1 := by
  unfold normalizeThroughput
  by_cases h : t ≤ 0
  · simp [h]
  · push_neg at h
    rw [if_neg (not_le.mpr h)]
    have h1 : 0 < 100 / t := by positivity
    have h2 : (0 : ℚ) < 1 + 100 / t := by linarith
    exact ⟨le_min (by norm_num) (by positivity), min_le_left _ _⟩

theorem normalizeLatency_bounds (a p95 : ℚ) :
    0 ≤ normalizeLatency a p95 ∧ normalizeLatency a p95 ≤ 1 := by
  unfold normalizeLatency
  by_cases h : a ≤ 0
  · simp [h]
  · push_neg at h
    rw [if_neg (not_le.mpr h)]
    have ha1 : (0 : ℚ) < 1 + a * 10 := by nlinarith
    have hA0 : 0 < 1 / (1 + a * 10) := by positivity
    have hA1 : 1 / (1 + a * 10) ≤ 1 := by
      rw [div_le_one ha1]; nlinarith
    by_cases hp : 0 < p95
    · have hp1 : (0 : ℚ) < 1 + p95 * 5 := by nlinarith
      have hP0 : 0 < 1 / (1 + p95 * 5) := by positivity
      have hP1 : 1 / (1 + p95 * 5) ≤ 1 := by
        rw [div_le_one hp1]; nlinarith
      rw [if_pos hp]
      constructor <;> nlinarith
    · rw [if_neg hp]
      constructor <;> nlinarith

theorem calculateEfficiency_bounds (ind : Individual) (m : FitnessMetrics) :
    0 ≤ calculateEfficiency ind m ∧ calculateEfficiency ind m ≤ 1 :=
  ⟨le_min (by norm_num) (le_max_left 0 _), min_le_left 1 _⟩

theorem calculateReliability_bounds (m : FitnessMetrics)
    (hsr0 : 0 ≤ m.success_rate) (hsr1 : m.success_rate ≤ 1) (he : 0 ≤ m.error_rate) :
    0 ≤ calculateReliability m ∧ calculateReliability m ≤ 1 := by
  unfold calculateReliability
  have hE0 : 0 ≤ min 1 (m.error_rate / 10) := le_min (by norm_num) (by positivity)
  have hE1 : min 1 (m.error_rate / 10) ≤ 1 := min_le_left _ _
  refine ⟨le_max_left 0 _, max_le (by norm_num) ?_⟩
  nlinarith

/-- C8: for any weights with nonnegative components and positive total
(as the constructor normalizes them) and any metrics with success_rate
in [0, 1] and nonnegative throughput, latencies and error rate, each of
the four sub-scores lies in [0, 1], the normalized weights sum to 1, and
the fitness score lies in [0, 1.2] (indeed in [0, 1]). -/
theorem fitness_bounds (w : FitnessWeights) (ind : Individual) (m : FitnessMetrics)
    (hw1 : 0 ≤ w.throughput_weight) (hw2 : 0 ≤ w.latency_weight)
    (hw3 : 0 ≤ w.resource_efficiency_weight) (hw4 : 0 ≤ w.reliability_weight)
    (hwpos : 0 < w.total)
    (hsr0 : 0 ≤ m.success_rate) (hsr1 : m.success_rate ≤ 1)
    (ht : 0 ≤ m.throughput) (ha : 0 ≤ m.avg_latency) (hp : 0 ≤ m.p95_latency)
    (he : 0 ≤ m.error_rate) :
    (0 ≤ normalizeThroughput m.throughput ∧ normalizeThroughput m.throughput ≤ 1)
    ∧ (0 ≤ normalizeLatency m.avg_latency m.p95_latency
        ∧ normalizeLatency m.avg_latency m.p95_latency ≤ 1)
    ∧ (0 ≤ calculateEfficiency ind m ∧ calculateEfficiency ind m ≤ 1)
    ∧ (0 ≤ calculateReliability m ∧ calculateReliability m ≤ 1)
    ∧ w.normalize.total = 1
    ∧ 0 ≤ calculate w.normalize ind m
    ∧ calculate w.normalize ind m ≤ 1
    ∧ calculate w.normalize ind m ≤ 6/5 := by
  obtain ⟨hT0, hT1⟩ := normalizeThroughput_bounds m.throughput
  obtain ⟨hL0, hL1⟩ := normalizeLatency_bounds m.avg_latency m.p95_latency
  obtain ⟨hE0, hE1⟩ := calculateEfficiency_bounds ind m
  obtain ⟨hR0, hR1⟩ := calculateReliability_bounds m hsr0 hsr1 he
  have hne : w.total ≠ 0 := ne_of_gt hwpos
  have hnorm : w.normalize = FitnessWeights.mk (w.throughput_weight / w.total)
      (w.latency_weight / w.total) (w.resource_efficiency_weight / w.total)
      (w.reliability_weight / w.total) := by
    unfold FitnessWeights.normalize
    rw [if_pos hwpos]
  have htotal : w.normalize.total = 1 := by
    rw [hnorm]
    show w.throughput_weight / w.total + w.latency_weight / w.total
        + w.resource_efficiency_weight / w.total + w.reliability_weight / w.total = 1
    rw [div_add_div_same, div_add_div_same, div_add_div_same]
    exact div_self hne
  have hn1 : 0 ≤ w.normalize.throughput_weight := by rw [hnorm]; positivity
  have hn2 : 0 ≤ w.normalize.latency_weight := by rw [hnorm]; positivity
  have hn3 : 0 ≤ w.normalize.resource_efficiency_weight := by rw [hnorm]; positivity
  have hn4 : 0 ≤ w.normalize.reliability_weight := by rw [hnorm]; positivity
  have hsum : w.normalize.throughput_weight + w.normalize.latency_weight
      + w.normalize.resource_efficiency_weight + w.normalize.reliability_weight = 1 :=
    htotal
  refine ⟨⟨hT0, hT1⟩, ⟨hL0, hL1⟩, ⟨hE0, hE1⟩, ⟨hR0, hR1⟩, htotal, ?_, ?_, ?_⟩
  · unfold calculate
    have := mul_nonneg hn1 hT0
    have := mul_nonneg hn2 hL0
    have := mul_nonneg hn3 hE0
    have := mul_nonneg hn4 hR0
    linarith
  · unfold calculate
    have h1 := mul_le_of_le_one_right hn1 hT1
    have h2 := mul_le_of_le_one_right hn2 hL1
    have h3 := mul_le_of_le_one_right hn3 hE1
    have h4 := mul_le_of_le_one_right hn4 hR1
    linarith
  · unfold calculate
    have h1 := mul_le_of_le_one_right hn1 hT1
    have h2 := mul_le_of_le_one_right hn2 hL1
    have h3 := mul_le_of_le_one_right hn3 hE1
    have h4 := mul_le_of_le_one_right hn4 hR1
    linarith

/-- Witness for C8 at the default weights and the spec's smoke-test
metrics (throughput 100, avg latency 0.1, p95 0.2, success rate 1, no
errors, both utilizations 0.6). -/
theorem fitness_bounds_witness :
    0 ≤ calculate (FitnessWeights.mk (3/10) (1/4) (1/4) (1/5)).normalize
        ⟨2, 1, 256, none⟩
        { throughput := 100, avg_latency := 1/10, p95_latency := 1/5,
          success_rate := 1, error_rate := 0,
          cpu_utilization := 3/5, memory_utilization := 3/5 }
    ∧ calculate (FitnessWeights.mk (3/10) (1/4) (1/4) (1/5)).normalize
        ⟨2, 1, 256, none⟩
        { throughput := 100, avg_latency := 1/10, p95_latency := 1/5,
          success_rate := 1, error_rate := 0,
          cpu_utilization := 3/5, memory_utilization := 3/5 } ≤ 6/5 := by
  have h := fitness_bounds (FitnessWeights.mk (3/10) (1/4) (1/4) (1/5))
    ⟨2, 1, 256, none⟩
    { throughput := 100, avg_latency := 1/10, p95_latency := 1/5,
      success_rate := 1, error_rate := 0,
      cpu_utilization := 3/5, memory_utilization := 3/5 }
    (by norm_num) (by norm_num) (by norm_num) (by norm_num)
    (by norm_num [FitnessWeights.total]) (by norm_num) (by norm_num)
    (by norm_num) (by norm_num) (by norm_num) (by norm_num)
  exact ⟨h.2.2.2.2.2.1, h.2.2.2.2.2.2.2⟩

end Fitness

end K8sGA

namespace K8sGA

namespace Pop

theorem round2_twoDecimals (x : ℚ) : twoDecimals (round2 x) :=
  ⟨round (x * 100), rfl⟩

theorem le_round2 {a x : ℚ} (ha : twoDecimals a) (h : a ≤ x) : a ≤ round2 x := by
  obtain ⟨k, rfl⟩ := ha
  have h1 : (k : ℚ) ≤ x * 100 := by linarith
  have h2 : k ≤ round (x * 100) := by
    calc k = round ((k : ℚ)) := (round_intCast k).symm
    _ ≤ round (x * 100) := by
        rw [round_eq, round_eq]
        exact Int.floor_mono (by linarith)
  have h3 : ((k : ℚ)) ≤ ((round (x * 100) : ℤ) : ℚ) := by exact_mod_cast h2
  unfold round2
  linarith

theorem round2_le {b x : ℚ} (hb : twoDecimals b) (h : x ≤ b) : round2 x ≤ b := by
  obtain ⟨k, rfl⟩ := hb
  have h1 : x * 100 ≤ (k : ℚ) := by linarith
  have h2 : round (x * 100) ≤ k := by
    have hmono : round (x * 100) ≤ round ((k : ℚ)) := by
      rw [round_eq, round_eq]
      exact Int.floor_mono (by linarith)
    rwa [round_intCast] at hmono
  have h3 : ((round (x * 100) : ℤ) : ℚ) ≤ ((k : ℚ)) := by exact_mod_cast h2
  unfold round2
  linarith

theorem clampZ_mem {lo hi : ℤ} (x : ℤ) (h : lo ≤ hi) :
    lo ≤ clampZ lo hi x ∧ clampZ lo hi x ≤ hi :=
  ⟨le_max_left lo _, max_le h (min_le_left hi x)⟩

theorem clampQ_mem {lo hi : ℚ} (x : ℚ) (h : lo ≤ hi) :
    lo ≤ clampQ lo hi x ∧ clampQ lo hi x ≤ hi :=
  ⟨le_max_left lo _, max_le h (min_le_left hi x)⟩

theorem validateIndividual_inBounds (p : GAParameters) (hp : wfParams p)
    (ind : Individual) : inBounds p (validateIndividual p ind) := by
  obtain ⟨hr, hc, hm, hlo, hhi⟩ := hp
  obtain ⟨h1, h2⟩ := clampZ_mem ind.replicas hr
  obtain ⟨h3, h4⟩ := clampQ_mem ind.cpu_limit hc
  obtain ⟨h5, h6⟩ := clampZ_mem ind.memory_limit hm
  exact ⟨h1, h2, le_round2 hlo h3, round2_le hhi h4, h5, h6,
    round2_twoDecimals _⟩

/-- C7: every Individual the Population Manager produces — by random
initialization (draws within the configured bounds), by validation, by
mutation of an in-bounds individual, or by crossover of in-bounds
parents — has replicas, cpu_limit and memory_limit within the configured
bounds, and its cpu_limit has at most two decimal places.  The
hypotheses on the existing individuals close the loop: mutate and
crossover return an untouched deep copy when their random trigger does
not fire, so their outputs stay in bounds exactly because their inputs
(themselves produced by this manager) are. -/
theorem population_bounds_invariant (p : GAParameters) (hp : wfParams p) :
    (∀ (dRep : ℤ) (dCpu : ℚ) (dMem : ℤ),
        p.replicas_bounds.1 ≤ dRep → dRep ≤ p.replicas_bounds.2 →
        p.cpu_limit_bounds.1 ≤ dCpu → dCpu ≤ p.cpu_limit_bounds.2 →
        p.memory_limit_bounds.1 ≤ dMem → dMem ≤ p.memory_limit_bounds.2 →
        inBounds p (createRandomIndividual dRep dCpu dMem))
    ∧ (∀ ind : Individual, inBounds p (validateIndividual p ind))
    ∧ (∀ (ind : Individual) (strength : ℚ) (d : MutateDraws),
        inBounds p ind → inBounds p (mutate p ind strength d))
    ∧ (∀ (parent1 parent2 : Individual) (d : CrossoverDraws),
        inBounds p parent1 → inBounds p parent2 →
        inBounds p (crossover p parent1 parent2 d)) := by
  obtain ⟨hr, hc, hm, hlo, hhi⟩ := hp
  refine ⟨?_, validateIndividual_inBounds p ⟨hr, hc, hm, hlo, hhi⟩, ?_, ?_⟩
  · intro dRep dCpu dMem h1 h2 h3 h4 h5 h6
    exact ⟨h1, h2, le_round2 hlo h3, round2_le hhi h4, h5, h6, round2_twoDecimals _⟩
  · intro ind strength d hin
    unfold mutate
    split
    · exact hin
    · match d.param with
      | 0 => exact validateIndividual_inBounds p ⟨hr, hc, hm, hlo, hhi⟩ _
      | 1 => exact validateIndividual_inBounds p ⟨hr, hc, hm, hlo, hhi⟩ _
      | 2 => exact validateIndividual_inBounds p ⟨hr, hc, hm, hlo, hhi⟩ _
  · intro parent1 parent2 d h1 h2
    unfold crossover
    split
    · split
      · exact h1
      · exact h2
    · exact validateIndividual_inBounds p ⟨hr, hc, hm, hlo, hhi⟩ _

/-- Witness for C7 at the default GA parameter bounds: validating an
arbitrary concrete individual lands in bounds. -/
theorem population_bounds_invariant_witness :
    inBounds {} (validateIndividual {} ⟨50, 7, 9999, none⟩) :=
  (population_bounds_invariant {}
    ⟨by norm_num, by norm_num, by norm_num, ⟨10, by norm_num⟩, ⟨200, by norm_num⟩⟩).2.1
    ⟨50, 7, 9999, none⟩

end Pop

end K8sGA

namespace K8sGA

namespace Pop

theorem take_append_all {α : Type} (k : ℕ) (l1 l2 : List α)
    (h1 : l1.length ≤ k) (h2 : l1.length = k ∨ l2 = []) :
    (l1 ++ l2).take k = l1 := by
  rcases h2 with h2 | h2
  · rw [List.take_append_eq_append_take, List.take_of_length_le h1, h2, Nat.sub_self,
      List.take_zero, List.append_nil]
  · rw [h2, List.append_nil, List.take_of_length_le h1]

/-- C6: for a non-empty population with one fitness score per
individual, evolve returns a population of the same size whose
generation counter is the predecessor's plus one, and whose first
elitism_count individuals are exactly the top elitism_count individuals
of the input by fitness (the prefix of the stable descending sort),
unchanged — for every choice of random draws. -/
theorem evolve_spec (p : GAParameters) (population : Population)
    (fitness_scores : List ℚ) (draws : ℕ → ChildDraws)
    (hne : population.individuals ≠ [])
    (hlen : fitness_scores.length = population.individuals.length) :
    (evolve p population fitness_scores draws).individuals.length
        = population.individuals.length
    ∧ (evolve p population fitness_scores draws).generation = population.generation + 1
    ∧ (evolve p population fitness_scores draws).individuals.take p.elitism_count
        = ((sortByScoreDesc (population.individuals.zip fitness_scores)).map
            Prod.fst).take p.elitism_count := by
  have hzip : (population.individuals.zip fitness_scores).length
      = population.individuals.length := by
    rw [List.length_zip, hlen, min_self]
  have hsortlen : (sortByScoreDesc (population.individuals.zip fitness_scores)).length
      = population.individuals.length := by
    rw [sortByScoreDesc, List.length_insertionSort, hzip]
  have helite : (((sortByScoreDesc (population.individuals.zip fitness_scores)).take
        p.elitism_count).map Prod.fst).length
      = min p.elitism_count population.individuals.length := by
    rw [List.length_map, List.length_take, hsortlen]
  refine ⟨?_, rfl, ?_⟩
  · show ((((sortByScoreDesc (population.individuals.zip fitness_scores)).take
        p.elitism_count).map Prod.fst) ++ _).length = population.individuals.length
    rw [List.length_append, helite, List.length_map, List.length_range]
    have := Nat.min_le_right p.elitism_count population.individuals.length
    omega
  · show ((((sortByScoreDesc (population.individuals.zip fitness_scores)).take
        p.elitism_count).map Prod.fst) ++ _).take p.elitism_count = _
    rw [take_append_all]
    · rw [List.map_take]
    · rw [helite]
      exact Nat.min_le_left _ _
    · rcases Nat.le_total p.elitism_count population.individuals.length with hk | hk
      · left
        rw [helite]
        exact Nat.min_eq_left hk
      · right
        rw [← List.length_eq_zero, List.length_map, List.length_range, helite,
          Nat.min_eq_right hk]
        omega

/-- Witness for C6 at the default parameters on a concrete two-member
population with distinct scores. -/
theorem evolve_spec_witness :
    (evolve {} ⟨[⟨1, 1, 256, none⟩, ⟨2, 1, 512, none⟩], 4⟩ [1, 2]
        (fun _ => ⟨⟨[0], [1], []⟩, ⟨1, true, 0, true, 0, 0, true⟩, ⟨1, 0, 0, 0⟩⟩)).individuals.length = 2
    ∧ (evolve {} ⟨[⟨1, 1, 256, none⟩, ⟨2, 1, 512, none⟩], 4⟩ [1, 2]
        (fun _ => ⟨⟨[0], [1], []⟩, ⟨1, true, 0, true, 0, 0, true⟩, ⟨1, 0, 0, 0⟩⟩)).generation = 5 := by
  have h := evolve_spec {} ⟨[⟨1, 1, 256, none⟩, ⟨2, 1, 512, none⟩], 4⟩ [1, 2]
    (fun _ => ⟨⟨[0], [1], []⟩, ⟨1, true, 0, true, 0, 0, true⟩, ⟨1, 0, 0, 0⟩⟩)
    (by simp) (by simp)
  exact ⟨h.1, h.2.1⟩

end Pop

end K8sGA
